import Mathlib

/-!
Verification of the tdeskdop-db-reader sources against their specification.

The byte-oriented readers of `src/descriptor.rs`, the key derivation and
cipher schedule of `src/crypto.rs`, and the record readers of `src/main.rs`
are embedded shallowly.  A stream (`std::io::Cursor` in the source) is
represented by the list of bytes that remain to be read: a cursor at
position `p` over buffer `b` corresponds to `b.drop p`.  Bytes are `Nat`s.

External cryptographic primitives (the `md5`, `ring` and `grammers_crypto`
crates) are not part of this repository; they enter the embedding as
explicit function parameters (`md5`, `sha1`, `sha512`, `ige`, `pbkdf2...`),
so every theorem quantifies over them and holds in particular for the real
primitives.
-/

/-- Error produced by the primitive readers (`std::io::Error` with kind
`UnexpectedEof`, as raised by `read_exact` / `byteorder`). -/
inductive IoErr
  | unexpectedEof
  deriving DecidableEq

deriving instance DecidableEq for Except

/-- Read `n` bytes big-endian (the `Readable` impls for `i32`/`i64`/`u16`/
`u32`/`u64` in descriptor.rs all read big-endian); returns the value and the
remaining stream. -/
def readBE : Nat → List Nat → Except IoErr (Nat × List Nat)
  | 0, s => .ok (0, s)
  | _ + 1, [] => .error .unexpectedEof
  | n + 1, b :: s =>
    match readBE n s with
    | .ok (v, r) => .ok (b * 256 ^ n + v, r)
    | .error e => .error e

/-- Big-endian encoding of `v` on `n` bytes (inverse of `readBE` for
`v < 256 ^ n`). -/
def beBytes : Nat → Nat → List Nat
  | 0, _ => []
  | n + 1, v => v / 256 ^ n :: beBytes n (v % 256 ^ n)

/-- Little-endian encoding of `v` on `n` bytes (`to_le_bytes` in the source;
a Rust `as i32` cast followed by `to_le_bytes` is the same as truncating to
the low 4 bytes, which this definition does). -/
def leBytes : Nat → Nat → List Nat
  | 0, _ => []
  | n + 1, v => v % 256 :: leBytes n (v / 256)

/-- Little-endian value of a byte list (`u32::from_le_bytes` when applied to
4 bytes). -/
def leVal : List Nat → Nat
  | [] => 0
  | b :: t => b + 256 * leVal t

theorem beBytes_length (n v : Nat) : (beBytes n v).length = n := by
  induction n generalizing v with
  | zero => rfl
  | succ n ih => simp [beBytes, ih]

theorem readBE_short {n : Nat} {s : List Nat} (h : s.length < n) :
    readBE n s = .error .unexpectedEof := by
  induction n generalizing s with
  | zero => omega
  | succ n ih =>
    cases s with
    | nil => rfl
    | cons b t =>
      have ht : t.length < n := by simp only [List.length_cons] at h; omega
      simp [readBE, ih ht]

theorem readBE_append {n v : Nat} (rest : List Nat) (hv : v < 256 ^ n) :
    readBE n (beBytes n v ++ rest) = .ok (v, rest) := by
  induction n generalizing v with
  | zero =>
    have : v = 0 := by simpa using hv
    simp [beBytes, readBE, this]
  | succ n ih =>
    have hmod : v % 256 ^ n < 256 ^ n := Nat.mod_lt _ (Nat.pos_pow_of_pos n (by omega))
    simp [beBytes, readBE, ih hmod, Nat.div_add_mod']

/-- `impl Readable for Bytes` (descriptor.rs): a big-endian `u32` length,
then that many bytes; lengths `0` and `0xFFFFFFFF` both decode to the empty
byte string without consuming payload bytes. -/
def readBytes (s : List Nat) : Except IoErr (List Nat × List Nat) :=
  match readBE 4 s with
  | .error e => .error e
  | .ok (len, r) =>
    if len = 0 ∨ len = 4294967295 then .ok ([], r)
    else if len ≤ r.length then .ok (r.take len, r.drop len)
    else .error .unexpectedEof

/-- Length-prefixed encoding of a byte string, as produced by the writers
the reader expects (`len:u32 BE` then the bytes). -/
def encBytes (b : List Nat) : List Nat := beBytes 4 b.length ++ b

theorem readBytes_enc {b : List Nat} (rest : List Nat)
    (h : b.length < 4294967295) :
    readBytes (encBytes b ++ rest) = .ok (b, rest) := by
  unfold readBytes encBytes
  rw [List.append_assoc, readBE_append (b ++ rest) (by omega)]
  rcases Nat.eq_zero_or_pos b.length with hz | hp
  · have : b = [] := List.length_eq_zero.mp hz
    simp [this]
  · have h1 : ¬(b.length = 0 ∨ b.length = 4294967295) := by omega
    have h2 : b.length ≤ (b ++ rest).length := by simp
    simp only [h1, if_false, h2, if_true]
    rw [List.take_left, List.drop_left]

/-- C9: decoding a `Bytes` value reads a big-endian u32 length; length 0 and
length 0xFFFFFFFF both yield the empty byte string, and any other length
yields a slice of exactly that many bytes, an error if fewer remain. -/
theorem c9_bytes_decoding (len : Nat) (rest : List Nat) (h : len < 4294967296) :
    readBytes (beBytes 4 len ++ rest) =
      if len = 0 ∨ len = 4294967295 then .ok (([] : List Nat), rest)
      else if len ≤ rest.length then .ok (rest.take len, rest.drop len)
      else .error .unexpectedEof := by
  unfold readBytes
  rw [readBE_append rest (by omega)]

theorem c9_bytes_decoding_witness :
    readBytes (beBytes 4 3 ++ [7, 8, 9, 10]) = .ok ([7, 8, 9], [10]) := by
  rw [c9_bytes_decoding 3 [7, 8, 9, 10] (by omega)]
  simp

/-! ## Key derivation — `MtpAuthKey::create_local` / `create_legacy_local` (crypto.rs) -/

/-- `MtpAuthKey::create_local` (crypto.rs).  `sha512` is `ring`'s SHA-512
digest; `pbkdf2Sha512 iters salt secret outLen` is
`ring::pbkdf2::derive(PBKDF2_HMAC_SHA512, iters, salt, secret, out)` with a
256-byte output buffer.  The digest context is updated with `salt`,
`passcode`, `salt` in that order. -/
def createLocal (sha512 : List Nat → List Nat)
    (pbkdf2Sha512 : Nat → List Nat → List Nat → Nat → List Nat)
    (passcode salt : List Nat) : List Nat :=
  let hash := sha512 ((salt ++ passcode) ++ salt)
  let iterations := if passcode.isEmpty then 1 else 100000
  pbkdf2Sha512 iterations salt hash 256

/-- `MtpAuthKey::create_legacy_local` (crypto.rs): PBKDF2-HMAC-SHA1 with the
passcode as the secret, 4 iterations when the passcode is empty and 4000
otherwise, 256-byte output. -/
def createLegacyLocal (pbkdf2Sha1 : Nat → List Nat → List Nat → Nat → List Nat)
    (passcode salt : List Nat) : List Nat :=
  let iterations := if passcode.isEmpty then 4 else 4000
  pbkdf2Sha1 iterations salt passcode 256

/-- Modelled from the spec: `AuthKey_modern(passcode, salt:32) =
PBKDF2_HMAC_SHA512(key = SHA512(salt || passcode || salt), salt = salt,
iters = passcode.empty ? 1 : 100_000, outLen = 256)`. -/
def authKeyModernSpec (sha512 : List Nat → List Nat)
    (pbkdf2Sha512 : Nat → List Nat → List Nat → Nat → List Nat)
    (passcode salt : List Nat) : List Nat :=
  pbkdf2Sha512 (if passcode = [] then 1 else 100000) salt
    (sha512 (salt ++ passcode ++ salt)) 256

/-- Modelled from the spec: `AuthKey_legacy(passcode, salt:32) =
PBKDF2_HMAC_SHA1(key = passcode, salt = salt,
iters = passcode.empty ? 4 : 4_000, outLen = 256)`. -/
def authKeyLegacySpec (pbkdf2Sha1 : Nat → List Nat → List Nat → Nat → List Nat)
    (passcode salt : List Nat) : List Nat :=
  pbkdf2Sha1 (if passcode = [] then 4 else 4000) salt passcode 256

/-- C3: for every passcode and 32-byte salt, the modern auth key is
PBKDF2-HMAC-SHA512 with secret SHA512(salt || passcode || salt), salt =
salt, 256-byte output, 1 iteration for the empty passcode and 100000
otherwise; the legacy auth key is PBKDF2-HMAC-SHA1 with secret = passcode,
salt = salt, 256-byte output, 4 iterations for the empty passcode and 4000
otherwise. -/
theorem c3_kdf_regimes (sha512 : List Nat → List Nat)
    (pbkdf2Sha512 pbkdf2Sha1 : Nat → List Nat → List Nat → Nat → List Nat)
    (passcode salt : List Nat) (hsalt : salt.length = 32) :
    createLocal sha512 pbkdf2Sha512 passcode salt =
        authKeyModernSpec sha512 pbkdf2Sha512 passcode salt ∧
      createLegacyLocal pbkdf2Sha1 passcode salt =
        authKeyLegacySpec pbkdf2Sha1 passcode salt := by
  constructor <;>
    simp [createLocal, createLegacyLocal, authKeyModernSpec, authKeyLegacySpec,
      List.isEmpty_iff, List.append_assoc]

theorem c3_kdf_regimes_witness :
    (createLocal (fun l => [l.length]) (fun i s k o => [i] ++ s ++ k ++ [o])
        [9] (List.replicate 32 0) =
      authKeyModernSpec (fun l => [l.length]) (fun i s k o => [i] ++ s ++ k ++ [o])
        [9] (List.replicate 32 0)) ∧
    (createLegacyLocal (fun i s k o => [i] ++ s ++ k ++ [o]) [] (List.replicate 32 0) =
      authKeyLegacySpec (fun i s k o => [i] ++ s ++ k ++ [o]) [] (List.replicate 32 0)) :=
  ⟨(c3_kdf_regimes (fun l => [l.length]) (fun i s k o => [i] ++ s ++ k ++ [o])
      (fun i s k o => [i] ++ s ++ k ++ [o]) [9] (List.replicate 32 0) (by simp)).1,
   (c3_kdf_regimes (fun l => [l.length]) (fun i s k o => [i] ++ s ++ k ++ [o])
      (fun i s k o => [i] ++ s ++ k ++ [o]) [] (List.replicate 32 0) (by simp)).2⟩

/-! ## Cipher schedule — `MtpAuthKey::prepare_aes_oldmtp` (crypto.rs) -/

/-- Rust slice `l[i..j]`. -/
def sliceL (l : List Nat) (i j : Nat) : List Nat := (l.drop i).take (j - i)

/-- `dst[i .. i + src.len()].copy_from_slice(src)` on a byte buffer. -/
def writeRange (dst : List Nat) (i : Nat) (src : List Nat) : List Nat :=
  dst.take i ++ src ++ dst.drop (i + src.length)

/-- `MtpAuthKey::prepare_aes_oldmtp` (crypto.rs).  `sha1` is `ring`'s SHA-1
digest (applied to the concatenation of the updated parts, exactly as
`sha1_of_parts` feeds them); the two 32-byte outputs start as zeroed arrays
filled by consecutive `copy_from_slice` writes. -/
def prepareAesOldmtp (sha1 : List Nat → List Nat) (authKey msgKey : List Nat)
    (send : Bool) : List Nat × List Nat :=
  let data := if send then sliceL authKey 0 128 else sliceL authKey 8 136
  let a := sha1 (msgKey ++ sliceL data 0 32)
  let b := sha1 ((sliceL data 32 48 ++ msgKey) ++ sliceL data 48 64)
  let c := sha1 (sliceL data 64 96 ++ msgKey)
  let d := sha1 (msgKey ++ sliceL data 96 128)
  let aesKey :=
    writeRange (writeRange (writeRange (List.replicate 32 0)
      0 (sliceL a 0 8)) 8 (sliceL b 8 20)) 20 (sliceL c 4 16)
  let aesIv :=
    writeRange (writeRange (writeRange (writeRange (List.replicate 32 0)
      0 (sliceL a 8 20)) 12 (sliceL b 0 8)) 20 (sliceL c 16 20)) 24 (sliceL d 0 8)
  (aesKey, aesIv)

/-- `aes_decrypt_local` (crypto.rs): prepares the schedule with
`send = false` (the receive direction) and calls
`grammers_crypto::aes::ige_decrypt`, here the parameter `ige`. -/
def aesDecryptLocal (sha1 : List Nat → List Nat)
    (ige : List Nat → List Nat → List Nat → List Nat)
    (src key key128 : List Nat) : List Nat :=
  let p := prepareAesOldmtp sha1 key key128 false
  ige src p.1 p.2

/-- Modelled from the spec: §4.3 — `A = SHA1(msgKey || d[0..32])`,
`B = SHA1(d[32..48] || msgKey || d[48..64])`, `C = SHA1(d[64..96] || msgKey)`,
`D = SHA1(msgKey || d[96..128])`;
`aes_key = A[0..8] || B[8..20] || C[4..16]`,
`aes_iv = A[8..20] || B[0..8] || C[16..20] || D[0..8]`. -/
def specAesSchedule (sha1 : List Nat → List Nat) (d msgKey : List Nat) :
    List Nat × List Nat :=
  let a := sha1 (msgKey ++ sliceL d 0 32)
  let b := sha1 (sliceL d 32 48 ++ msgKey ++ sliceL d 48 64)
  let c := sha1 (sliceL d 64 96 ++ msgKey)
  let e := sha1 (msgKey ++ sliceL d 96 128)
  (sliceL a 0 8 ++ sliceL b 8 20 ++ sliceL c 4 16,
   sliceL a 8 20 ++ sliceL b 0 8 ++ sliceL c 16 20 ++ sliceL e 0 8)

theorem writeRange_chain3 {x y z : List Nat}
    (hx : x.length = 8) (hy : y.length = 12) (hz : z.length = 12) :
    writeRange (writeRange (writeRange (List.replicate 32 0) 0 x) 8 y) 20 z =
      x ++ y ++ z := by
  simp [writeRange, List.take_append_eq_append_take, List.drop_append_eq_append_drop,
    hx, hy, hz, List.take_replicate, List.drop_replicate, List.take_all_of_le,
    List.drop_eq_nil_of_le]

theorem writeRange_chain4 {x y z w : List Nat}
    (hx : x.length = 12) (hy : y.length = 8) (hz : z.length = 4) (hw : w.length = 8) :
    writeRange (writeRange (writeRange (writeRange (List.replicate 32 0)
        0 x) 12 y) 20 z) 24 w =
      x ++ y ++ z ++ w := by
  simp [writeRange, List.take_append_eq_append_take, List.drop_append_eq_append_drop,
    hx, hy, hz, hw, List.take_replicate, List.drop_replicate, List.take_all_of_le,
    List.drop_eq_nil_of_le]

/-- C4: for a 256-byte auth key and 16-byte message key, the cipher schedule
uses `d = authKey[8..136]` in the receive direction (`authKey[0..128]` for
send), the four SHA-1 digests A, B, C, D of the spec, and produces
`aes_key = A[0..8] || B[8..20] || C[4..16]`,
`aes_iv = A[8..20] || B[0..8] || C[16..20] || D[0..8]`; the encrypted-block
decryption path (`aes_decrypt_local`) always uses the receive direction. -/
theorem c4_aes_schedule (sha1 : List Nat → List Nat)
    (ige : List Nat → List Nat → List Nat → List Nat)
    (authKey msgKey src : List Nat)
    (hsha : ∀ x, (sha1 x).length = 20) :
    prepareAesOldmtp sha1 authKey msgKey false =
        specAesSchedule sha1 (sliceL authKey 8 136) msgKey ∧
      prepareAesOldmtp sha1 authKey msgKey true =
        specAesSchedule sha1 (sliceL authKey 0 128) msgKey ∧
      aesDecryptLocal sha1 ige src authKey msgKey =
        ige src (specAesSchedule sha1 (sliceL authKey 8 136) msgKey).1
          (specAesSchedule sha1 (sliceL authKey 8 136) msgKey).2 := by
  have hs : ∀ (l : List Nat) (i j : Nat), (sha1 l).length = 20 →
      (sliceL (sha1 l) i j).length = min (j - i) (20 - i) := by
    intro l i j h
    simp [sliceL, h]
  refine ⟨?_, ?_, ?_⟩
  · unfold prepareAesOldmtp specAesSchedule
    simp only [if_false, Bool.false_eq_true, List.append_assoc]
    rw [writeRange_chain3 (by simp [sliceL, hsha]) (by simp [sliceL, hsha]) (by simp [sliceL, hsha]),
      writeRange_chain4 (by simp [sliceL, hsha]) (by simp [sliceL, hsha]) (by simp [sliceL, hsha]) (by simp [sliceL, hsha])]
    simp [List.append_assoc]
  · unfold prepareAesOldmtp specAesSchedule
    simp only [if_true, List.append_assoc]
    rw [writeRange_chain3 (by simp [sliceL, hsha]) (by simp [sliceL, hsha]) (by simp [sliceL, hsha]),
      writeRange_chain4 (by simp [sliceL, hsha]) (by simp [sliceL, hsha]) (by simp [sliceL, hsha]) (by simp [sliceL, hsha])]
    simp [List.append_assoc]
  · unfold aesDecryptLocal
    have h1 : prepareAesOldmtp sha1 authKey msgKey false =
        specAesSchedule sha1 (sliceL authKey 8 136) msgKey := by
      unfold prepareAesOldmtp specAesSchedule
      simp only [if_false, Bool.false_eq_true, List.append_assoc]
      rw [writeRange_chain3 (by simp [sliceL, hsha]) (by simp [sliceL, hsha]) (by simp [sliceL, hsha]),
        writeRange_chain4 (by simp [sliceL, hsha]) (by simp [sliceL, hsha]) (by simp [sliceL, hsha]) (by simp [sliceL, hsha])]
      simp [List.append_assoc]
    rw [h1]

theorem c4_aes_schedule_witness :
    prepareAesOldmtp (fun x => List.replicate 20 x.length) (List.range 256)
        (List.range 16) false =
      specAesSchedule (fun x => List.replicate 20 x.length)
        (sliceL (List.range 256) 8 136) (List.range 16) ∧
    prepareAesOldmtp (fun x => List.replicate 20 x.length) (List.range 256)
        (List.range 16) true =
      specAesSchedule (fun x => List.replicate 20 x.length)
        (sliceL (List.range 256) 0 128) (List.range 16) ∧
    aesDecryptLocal (fun x => List.replicate 20 x.length)
        (fun s k iv => s ++ k ++ iv) [1, 2, 3] (List.range 256) (List.range 16) =
      (fun s k iv => s ++ k ++ iv) [1, 2, 3]
        (specAesSchedule (fun x => List.replicate 20 x.length)
          (sliceL (List.range 256) 8 136) (List.range 16)).1
        (specAesSchedule (fun x => List.replicate 20 x.length)
          (sliceL (List.range 256) 8 136) (List.range 16)).2 :=
  c4_aes_schedule (fun x => List.replicate 20 x.length) (fun s k iv => s ++ k ++ iv)
    (List.range 256) (List.range 16) [1, 2, 3] (fun x => by simp)

/-! ## Encrypted block — `EncryptedDescriptor::decrypt_local` (descriptor.rs) -/

/-- Failures of `EncryptedDescriptor::decrypt_local` (the three `bail!`
sites: "bad encrypted part size", "bad decrypt key", "bad decrypted part"). -/
inductive DescErr
  | badEncryptedSize
  | badDecryptKey
  | badDeclaredLen
  deriving DecidableEq

/-- The AES-IGE plaintext produced inside `decrypt_local`:
`aes_decrypt_local(&encrypted[16..], key, &encrypted[..16])`. -/
def decryptedOf (sha1 : List Nat → List Nat)
    (ige : List Nat → List Nat → List Nat → List Nat)
    (encrypted key : List Nat) : List Nat :=
  aesDecryptLocal sha1 ige (encrypted.drop 16) key (encrypted.take 16)

/-- `EncryptedDescriptor::decrypt_local` (descriptor.rs).  `full_len` is
`encrypted.len() - 16`, so the middle declared-length comparison is against
`encrypted.length - 16 - 16`.  On success the cursor is positioned at offset
4 of the plaintext truncated to the declared length, i.e. the remaining
stream is `(decrypted.take dataLen).drop 4`. -/
def decryptLocal (sha1 : List Nat → List Nat)
    (ige : List Nat → List Nat → List Nat → List Nat)
    (encrypted key : List Nat) : Except DescErr (List Nat) :=
  if encrypted.length ≤ 16 ∨ encrypted.length % 16 ≠ 0 then .error .badEncryptedSize
  else if (sha1 (decryptedOf sha1 ige encrypted key)).take 16 ≠ encrypted.take 16 then
    .error .badDecryptKey
  else if leVal ((decryptedOf sha1 ige encrypted key).take 4) >
        (decryptedOf sha1 ige encrypted key).length ∨
      leVal ((decryptedOf sha1 ige encrypted key).take 4) ≤ encrypted.length - 16 - 16 ∨
      leVal ((decryptedOf sha1 ige encrypted key).take 4) < 4 then
    .error .badDeclaredLen
  else
    .ok (((decryptedOf sha1 ige encrypted key).take
      (leVal ((decryptedOf sha1 ige encrypted key).take 4))).drop 4)

/-- `Except.isOk`. -/
def isOkE : Except ε α → Bool
  | .ok _ => true
  | .error _ => false

/-- C1 (amended): for every buffer whose length is greater than 16 and
divisible by 16, whose AES-IGE plaintext has the same length as the
ciphertext, and whose decryption passes the SHA-1/outer-key check,
`decrypt_local` succeeds iff the little-endian declared length in the first
4 plaintext bytes satisfies `4 ≤ declaredLen`, `declaredLen ≤ plaintextLen`
and `declaredLen > plaintextLen - 16`; in particular `plaintextLen - 15` is
accepted and `plaintextLen - 16` is rejected with the bad-declared-length
error.  (The spec's bound `plaintextLen - 32` is wrong: the source compares
against `full_len - 16` where `full_len` is the plaintext length.) -/
theorem c1_declared_len_range (sha1 : List Nat → List Nat)
    (ige : List Nat → List Nat → List Nat → List Nat)
    (encrypted key : List Nat)
    (hgt : 16 < encrypted.length) (hmod : encrypted.length % 16 = 0)
    (hlen : (decryptedOf sha1 ige encrypted key).length = encrypted.length - 16)
    (hsha : (sha1 (decryptedOf sha1 ige encrypted key)).take 16 = encrypted.take 16) :
    isOkE (decryptLocal sha1 ige encrypted key) = true ↔
      (4 ≤ leVal ((decryptedOf sha1 ige encrypted key).take 4) ∧
       leVal ((decryptedOf sha1 ige encrypted key).take 4) ≤
         (decryptedOf sha1 ige encrypted key).length ∧
       (decryptedOf sha1 ige encrypted key).length - 16 <
         leVal ((decryptedOf sha1 ige encrypted key).take 4)) := by
  unfold decryptLocal
  rw [if_neg (show ¬(encrypted.length ≤ 16 ∨ encrypted.length % 16 ≠ 0) by omega),
    if_neg (by simp [hsha])]
  by_cases h2 : leVal ((decryptedOf sha1 ige encrypted key).take 4) >
        (decryptedOf sha1 ige encrypted key).length ∨
      leVal ((decryptedOf sha1 ige encrypted key).take 4) ≤ encrypted.length - 16 - 16 ∨
      leVal ((decryptedOf sha1 ige encrypted key).take 4) < 4
  · rw [if_pos h2]
    simp only [isOkE, Bool.false_eq_true, false_iff]
    omega
  · rw [if_neg h2]
    simp only [isOkE, true_iff]
    omega

theorem c1_declared_len_range_witness :
    isOkE (decryptLocal (fun _ => List.replicate 20 0)
      (fun _ _ _ => 33 :: 0 :: 0 :: 0 :: List.replicate 44 0)
      (List.replicate 64 0) (List.replicate 256 0)) = true :=
  (c1_declared_len_range (fun _ => List.replicate 20 0)
    (fun _ _ _ => 33 :: 0 :: 0 :: 0 :: List.replicate 44 0)
    (List.replicate 64 0) (List.replicate 256 0)
    (by decide) (by decide) (by decide) (by decide)).mpr (by decide)

/-- C1 (counterexample): a 64-byte buffer whose 48-byte plaintext declares
length `17 = 48 - 31`.  The claim's conditions hold (`4 ≤ 17`,
`17 ≤ 48`, `17 > 48 - 32`) and the SHA-1/outer-key check passes, so the
claim says `decrypt_local` accepts; the source rejects it with the
bad-declared-length error because `17 ≤ full_len - 16 = 32`. -/
theorem c1_declared_len_range_cex :
    16 < (List.replicate 64 0 : List Nat).length ∧
    (List.replicate 64 0 : List Nat).length % 16 = 0 ∧
    ((fun (_ : List Nat) => List.replicate 20 0)
        (decryptedOf (fun _ => List.replicate 20 0)
          (fun _ _ _ => 17 :: 0 :: 0 :: 0 :: List.replicate 44 0)
          (List.replicate 64 0) (List.replicate 256 0))).take 16 =
      (List.replicate 64 0 : List Nat).take 16 ∧
    leVal ((decryptedOf (fun _ => List.replicate 20 0)
        (fun _ _ _ => 17 :: 0 :: 0 :: 0 :: List.replicate 44 0)
        (List.replicate 64 0) (List.replicate 256 0)).take 4) = 17 ∧
    (decryptedOf (fun _ => List.replicate 20 0)
        (fun _ _ _ => 17 :: 0 :: 0 :: 0 :: List.replicate 44 0)
        (List.replicate 64 0) (List.replicate 256 0)).length = 48 ∧
    17 = 48 - 31 ∧ 4 ≤ 17 ∧ 17 ≤ 48 ∧ 48 - 32 < 17 ∧
    decryptLocal (fun _ => List.replicate 20 0)
        (fun _ _ _ => 17 :: 0 :: 0 :: 0 :: List.replicate 44 0)
        (List.replicate 64 0) (List.replicate 256 0) =
      .error .badDeclaredLen := by
  decide

/-! ## Envelope — `FileReadDescriptor::open` (descriptor.rs) -/

/-- `TDF_MAGIC = *b"TDF$"`. -/
def tdfMagic : List Nat := [0x54, 0x44, 0x46, 0x24]

/-- Outcomes of `FileReadDescriptor::open` once the file bytes are in hand
(path resolution is an I/O boundary).  `panicShortData` models the abnormal
termination when `bytes.len() - 16` underflows: the `usize` subtraction
panics under debug assertions, and in release mode the wrapped value makes
the subsequent `&bytes[..data_size]` slice panic — either way the function
aborts instead of returning. -/
inductive OpenErr
  | eofErr
  | badMagic
  | panicShortData
  | badSignature
  deriving DecidableEq

/-- Two's-complement reading of a `u32`-ranged value as an `i32`. -/
def toI32 (n : Nat) : Int := if n < 2 ^ 31 then (n : Int) else (n : Int) - 2 ^ 32

/-- The MD5 preimage of the envelope:
`body || len(body):i32le || version:i32le || magic` (the version bytes are
fed back exactly as read, so they appear as the raw `vbytes`). -/
def mdPre (body vbytes : List Nat) : List Nat :=
  body ++ leBytes 4 body.length ++ vbytes ++ tdfMagic

/-- `FileReadDescriptor::open` (descriptor.rs) on the bytes of the resolved
file: check the 4-byte magic, read the version as `i32` little-endian, split
the final 16 bytes off as the MD5 trailer, compare the MD5 of
`body || len || version || magic` with the trailer, and expose the version
and the body. -/
def fileOpen (md5 : List Nat → List Nat) (file : List Nat) :
    Except OpenErr (Int × List Nat) :=
  if file.length < 4 then .error .eofErr
  else if file.take 4 ≠ tdfMagic then .error .badMagic
  else if (file.drop 4).length < 4 then .error .eofErr
  else if ((file.drop 4).drop 4).length < 16 then .error .panicShortData
  else if md5 (mdPre
        (((file.drop 4).drop 4).take (((file.drop 4).drop 4).length - 16))
        ((file.drop 4).take 4)) ≠
      ((file.drop 4).drop 4).drop (((file.drop 4).drop 4).length - 16) then
    .error .badSignature
  else
    .ok (toI32 (leVal ((file.drop 4).take 4)),
      ((file.drop 4).drop 4).take (((file.drop 4).drop 4).length - 16))

theorem fileOpen_append (md5 : List Nat → List Nat)
    (vbytes body trailer : List Nat)
    (hv : vbytes.length = 4) (ht : trailer.length = 16) :
    fileOpen md5 (tdfMagic ++ (vbytes ++ (body ++ trailer))) =
      if md5 (mdPre body vbytes) = trailer then .ok (toI32 (leVal vbytes), body)
      else .error .badSignature := by
  have hm : (tdfMagic ++ (vbytes ++ (body ++ trailer))).take 4 = tdfMagic :=
    List.take_left' rfl
  have hd : (tdfMagic ++ (vbytes ++ (body ++ trailer))).drop 4 =
      vbytes ++ (body ++ trailer) := List.drop_left' rfl
  have hv1 : (vbytes ++ (body ++ trailer)).take 4 = vbytes := List.take_left' hv
  have hv2 : (vbytes ++ (body ++ trailer)).drop 4 = body ++ trailer :=
    List.drop_left' hv
  have hfl : (tdfMagic ++ (vbytes ++ (body ++ trailer))).length = body.length + 24 := by
    simp only [List.length_append, tdfMagic, List.length_cons, List.length_nil, hv, ht]
    omega
  have hfl2 : (vbytes ++ (body ++ trailer)).length = body.length + 20 := by
    simp only [List.length_append, hv, ht]; omega
  have hlen : (body ++ trailer).length = body.length + 16 := by
    simp only [List.length_append, ht]
  have hsub : body.length + 16 - 16 = body.length := by omega
  have hb : (body ++ trailer).take body.length = body := List.take_left' rfl
  have htr : (body ++ trailer).drop body.length = trailer := List.drop_left' rfl
  unfold fileOpen
  rw [hm, hd, hv1, hv2, hfl, hfl2, hlen, hsub, hb, htr]
  rw [if_neg (by omega), if_neg (by simp), if_neg (by omega), if_neg (by omega)]
  by_cases hmd : md5 (mdPre body vbytes) = trailer
  · rw [if_neg (by simpa using hmd), if_pos hmd]
  · rw [if_pos (by simpa using hmd), if_neg hmd]

/-- C2 (amended): for a file `TDF$ || version || body || trailer` with a
4-byte version and 16-byte trailer, `open` succeeds iff
`MD5(body || len(body):i32le || version:i32le || magic)` equals the
trailer, exposing exactly the body bytes and the version; any single bit
flipped in the 16-byte trailer makes it fail with the signature-mismatch
error, and a flip in body or version makes it fail whenever the MD5 of the
modified preimage differs from the trailer (which is all the bit-flip
clause can mean for an external, non-injective digest). -/
theorem c2_envelope_md5 (md5 : List Nat → List Nat)
    (vbytes body trailer trailer2 body2 vbytes2 : List Nat)
    (hv : vbytes.length = 4) (ht : trailer.length = 16) :
    (fileOpen md5 (tdfMagic ++ (vbytes ++ (body ++ trailer))) =
      if md5 (mdPre body vbytes) = trailer then .ok (toI32 (leVal vbytes), body)
      else .error .badSignature) ∧
    (trailer2.length = 16 → trailer2 ≠ trailer →
      md5 (mdPre body vbytes) = trailer →
      fileOpen md5 (tdfMagic ++ (vbytes ++ (body ++ trailer2))) =
        .error .badSignature) ∧
    (vbytes2.length = 4 → md5 (mdPre body2 vbytes2) ≠ trailer →
      fileOpen md5 (tdfMagic ++ (vbytes2 ++ (body2 ++ trailer))) =
        .error .badSignature) := by
  refine ⟨fileOpen_append md5 vbytes body trailer hv ht, ?_, ?_⟩
  · intro h2 hne hmd
    rw [fileOpen_append md5 vbytes body trailer2 hv h2]
    rw [if_neg (by rw [hmd]; exact fun h => hne h.symm)]
  · intro h2 hne
    rw [fileOpen_append md5 vbytes2 body2 trailer h2 ht]
    rw [if_neg hne]

theorem c2_envelope_md5_witness :
    (fileOpen (fun l => List.replicate 16 (l.length % 256))
        (tdfMagic ++ ([7, 0, 0, 0] ++ ([0xAA, 0xBB, 0xCC] ++ List.replicate 16 15))) =
      if (fun (l : List Nat) => List.replicate 16 (l.length % 256))
            (mdPre [0xAA, 0xBB, 0xCC] [7, 0, 0, 0]) = List.replicate 16 15 then
        .ok (toI32 (leVal [7, 0, 0, 0]), [0xAA, 0xBB, 0xCC])
      else .error .badSignature) ∧
    (List.length (List.replicate 16 14) = 16 →
      List.replicate 16 14 ≠ List.replicate 16 15 →
      (fun (l : List Nat) => List.replicate 16 (l.length % 256))
          (mdPre [0xAA, 0xBB, 0xCC] [7, 0, 0, 0]) = List.replicate 16 15 →
      fileOpen (fun l => List.replicate 16 (l.length % 256))
          (tdfMagic ++ ([7, 0, 0, 0] ++ ([0xAA, 0xBB, 0xCC] ++ List.replicate 16 14))) =
        .error .badSignature) ∧
    (List.length [7, 0, 0, 1] = 4 →
      (fun (l : List Nat) => List.replicate 16 (l.length % 256))
          (mdPre [0xAA] [7, 0, 0, 1]) ≠ List.replicate 16 15 →
      fileOpen (fun l => List.replicate 16 (l.length % 256))
          (tdfMagic ++ ([7, 0, 0, 1] ++ ([0xAA] ++ List.replicate 16 15))) =
        .error .badSignature) :=
  c2_envelope_md5 (fun l => List.replicate 16 (l.length % 256))
    [7, 0, 0, 0] [0xAA, 0xBB, 0xCC] (List.replicate 16 15) (List.replicate 16 14)
    [0xAA] [7, 0, 0, 1] (by decide) (by decide)

/-- C2 (counterexample): with the digest treated as what it is in this
repository — an external function — the bit-flip clause fails: a digest
that collides on the two preimages accepts both the original body `0xAA`
and the single-bit-flipped body `0xAB` under the same trailer, so
`open` succeeding on both refutes "any single bit flipped in body, version,
or trailer makes it fail". -/
theorem c2_envelope_md5_cex :
    fileOpen (fun _ => List.replicate 16 0)
        (tdfMagic ++ ([7, 0, 0, 0] ++ ([0xAA] ++ List.replicate 16 0))) =
      .ok (7, [0xAA]) ∧
    fileOpen (fun _ => List.replicate 16 0)
        (tdfMagic ++ ([7, 0, 0, 0] ++ ([0xAB] ++ List.replicate 16 0))) =
      .ok (7, [0xAB]) ∧
    Nat.xor 0xAA 0xAB = 1 := by
  decide

/-- C10: `FileReadDescriptor::open` is not total on short files — for every
file whose content after the 4-byte magic and the 4-byte little-endian
version is fewer than 16 bytes, `bytes.len() - 16` underflows and the
function aborts (panics) instead of returning an Io or signature error. -/
theorem c10_short_file_panics (md5 : List Nat → List Nat)
    (vbytes rest : List Nat) (hv : vbytes.length = 4) (hr : rest.length < 16) :
    fileOpen md5 (tdfMagic ++ (vbytes ++ rest)) = .error .panicShortData := by
  have hm : (tdfMagic ++ (vbytes ++ rest)).take 4 = tdfMagic := List.take_left' rfl
  have hd : (tdfMagic ++ (vbytes ++ rest)).drop 4 = vbytes ++ rest :=
    List.drop_left' rfl
  have hv2 : (vbytes ++ rest).drop 4 = rest := List.drop_left' hv
  have hfl : (tdfMagic ++ (vbytes ++ rest)).length = rest.length + 8 := by
    simp only [List.length_append, tdfMagic, List.length_cons, List.length_nil, hv]
    omega
  have hfl2 : (vbytes ++ rest).length = rest.length + 4 := by
    simp only [List.length_append, hv]; omega
  unfold fileOpen
  rw [hm, hd, hv2, hfl, hfl2]
  rw [if_neg (by omega), if_neg (by simp), if_neg (by omega), if_pos (by omega)]

theorem c10_short_file_panics_witness :
    fileOpen (fun _ => []) (tdfMagic ++ ([1, 2, 3, 4] ++ [9, 9, 9])) =
      .error .panicShortData :=
  c10_short_file_panics (fun _ => []) [1, 2, 3, 4] [9, 9, 9] (by decide) (by decide)

/-! ## Settings stream — `ReadSettingsContext::read_setting` (main.rs) -/

/-- Observable boot actions beyond stream consumption.  The spec's theme
reader (§4.8) would surface as a `themeRead` event carrying the chosen file
key; the source never produces one (its `ThemeKey` arm only prints the keys,
and printing is an I/O boundary). -/
inductive BootEffect
  | themeRead (key : Nat)
  deriving DecidableEq

/-- Failures of `read_setting`: a primitive read error, the
`unknown block id in read_setting` context error from `try_into`, the
abnormal termination of the `todo!` default arm, and fuel exhaustion of the
embedded driver loop (never reached with the fuel `runSettings` supplies). -/
inductive SettingErr
  | readFail (e : IoErr)
  | unknownBlockId
  | panicTodo (code : Nat)
  | outOfFuel
  deriving DecidableEq

def liftR {α : Type} : Except IoErr α → Except SettingErr α :=
  Except.mapError .readFail

/-- An arm that only consumes stream bytes: no effect, errors lifted. -/
def noEff (r : Except IoErr (List Nat)) :
    Except SettingErr (List Nat × List BootEffect) :=
  (liftR r).map (fun s => (s, []))

theorem noEff_ne_panic (r : Except IoErr (List Nat)) (e : Nat) :
    noEff r ≠ .error (.panicTodo e) := by
  cases r <;> simp [noEff, liftR, Except.mapError, Except.map]

/-- `skip` of a fixed-size big-endian value (`skip::<i32>`, `skip::<u64>`,
...): read it and drop the value. -/
def skipBE (n : Nat) (s : List Nat) : Except IoErr (List Nat) :=
  (readBE n s).map (·.2)

/-- `skip_bytes`: read a `Bytes` and drop it. -/
def skipBytesV (s : List Nat) : Except IoErr (List Nat) :=
  (readBytes s).map (·.2)

/-- Skip `count` items with the given item skipper (`Vec<T>::skip_from`'s
loop body). -/
def skipTimes (f : List Nat → Except IoErr (List Nat)) :
    Nat → List Nat → Except IoErr (List Nat)
  | 0, s => .ok s
  | n + 1, s => do
    let s1 ← f s
    skipTimes f n s1

/-- `Vec<T>::skip_from`: a big-endian `u32` count, then that many skipped
items. -/
def skipVec (f : List Nat → Except IoErr (List Nat)) (s : List Nat) :
    Except IoErr (List Nat) := do
  let (count, s1) ← readBE 4 s
  skipTimes f count s1

/-- Skip one `(u64, u16)` item (for `RecentStickers`). -/
def skipPairU64U16 (s : List Nat) : Except IoErr (List Nat) := do
  let s1 ← skipBE 8 s
  skipBE 2 s1

/-- The value set of the `DatabaseBlockId` enum (main.rs), i.e. the codes
`TryFromPrimitive` accepts. -/
def knownBlockIds : List Nat :=
  [ 0x00, 0x01, 0x02, 0x03, 0x04, 0x05, 0x06, 0x07, 0x08, 0x09, 0x0a, 0x0b,
   0x0c, 0x0d, 0x0e, 0x0f, 0x11, 0x12, 0x13, 0x14, 0x15, 0x16, 0x17, 0x18,
   0x19, 0x1a, 0x1c, 0x1d, 0x1e, 0x1f, 0x20, 0x21, 0x22, 0x23, 0x24, 0x25,
   0x26, 0x27, 0x28, 0x29, 0x30, 0x31, 0x32, 0x33, 0x34, 0x35, 0x36, 0x37,
   0x38, 0x39, 0x3a, 0x3b, 0x40, 0x41, 0x42, 0x43, 0x44, 0x45, 0x46, 0x47,
   0x48, 0x49, 0x4a, 0x4b, 0x4c, 0x4d, 0x4e, 0x4f, 0x50, 0x51, 0x52, 0x53,
   0x54, 0x55, 0x56, 0x57, 0x58, 0x59, 0x5a, 0x5b, 0x5c, 0x5d, 0x5e, 0x5f,
   0x60, 0x61, 333, 444, 666]

/-- The codes `read_setting` handles without reaching the `todo!` arm (its
match arms in main.rs). -/
def parsedOrSkippedBlockIds : List Nat :=
  [ 0x06, 0x07, 0x0a, 0x0c, 0x0d, 0x1d, 0x23, 0x26, 0x49, 0x4d, 0x4e, 0x54,
   0x55, 0x57, 0x58, 0x5c, 0x5e, 0x60, 0x61]

/-- The recognised codes on which `read_setting` falls through to
`x => todo!("{:?}", x)` and aborts. -/
def todoBlockIds : List Nat :=
  [ 0x00, 0x01, 0x02, 0x03, 0x04, 0x05, 0x08, 0x09, 0x0b, 0x0e, 0x0f, 0x11,
   0x12, 0x13, 0x14, 0x15, 0x16, 0x17, 0x18, 0x19, 0x1a, 0x1c, 0x1e, 0x1f,
   0x20, 0x21, 0x22, 0x24, 0x25, 0x27, 0x28, 0x29, 0x30, 0x31, 0x32, 0x33,
   0x34, 0x35, 0x36, 0x37, 0x38, 0x39, 0x3a, 0x3b, 0x40, 0x41, 0x42, 0x43,
   0x44, 0x45, 0x46, 0x47, 0x48, 0x4a, 0x4b, 0x4c, 0x4f, 0x50, 0x51, 0x52,
   0x53, 0x56, 0x59, 0x5a, 0x5b, 0x5d, 0x5f, 333, 444, 666]

/-- The body of `read_setting`'s `match block_id` (main.rs), keyed by the
numeric code.  `UseExternalVideoPlayer` skips a `u32`; `CacheSettings` skips
`(i32, i32, i64, i64)`; `SessionSettings`, `FallbackProductionConfig` and
`DialogLastPath` skip a `Bytes`; `ApplicationSettings` reads a `Bytes` and
binds it without using it; `RecentStickers` skips `Vec<(u64, u16)>`; the
boolean/i32 group skips an `i32`; `ThemeKey` reads `u64, u64, u32` and only
prints them; `BackgroundKey` reads `u64, u64`; `TileBackground` reads
`i32, i32`; `LangPackKey` skips a `u64`; everything else is
`x => todo!("{:?}", x)`. -/
def readSettingBody (code : Nat) (s : List Nat) :
    Except SettingErr (List Nat × List BootEffect) :=
  match code with
  | 0x49 => noEff (skipBE 4 s)
  | 0x5c => noEff (do
      let s1 ← skipBE 4 s
      let s2 ← skipBE 4 s1
      let s3 ← skipBE 8 s2
      skipBE 8 s3)
  | 0x4d => noEff (skipBytesV s)
  | 0x26 => noEff (skipVec skipPairU64U16 s)
  | 0x06 | 0x07 | 0x1d | 0x0a | 0x0c | 0x58 | 0x0d | 0x57 => noEff (skipBE 4 s)
  | 0x60 => noEff (skipBytesV s)
  | 0x5e => noEff ((readBytes s).map (·.2))
  | 0x23 => noEff (skipBytesV s)
  | 0x54 => noEff (do
      let s1 ← skipBE 8 s
      let s2 ← skipBE 8 s1
      skipBE 4 s2)
  | 0x61 => noEff (do
      let s1 ← skipBE 8 s
      skipBE 8 s1)
  | 0x55 => noEff (do
      let s1 ← skipBE 4 s
      skipBE 4 s1)
  | 0x4e => noEff (skipBE 8 s)
  | c => .error (.panicTodo c)

/-- `ReadSettingsContext::read_setting` (main.rs): read the `u32` block id,
fail on codes outside `DatabaseBlockId`, otherwise dispatch. -/
def readSetting (s : List Nat) : Except SettingErr (List Nat × List BootEffect) :=
  match readBE 4 s with
  | .error e => .error (.readFail e)
  | .ok (code, s1) =>
    if knownBlockIds.contains code then readSettingBody code s1
    else .error .unknownBlockId

/-- The `while !stream.at_end() { ctx.read_setting(...) }` loops of
`start_local_storage` / `read_session_settings` (main.rs), with fuel for
termination (each successful `read_setting` consumes at least the 4 id
bytes, so `length + 1` iterations always suffice). -/
def settingsLoop : Nat → List Nat → Except SettingErr (List BootEffect)
  | _, [] => .ok []
  | 0, _ :: _ => .error .outOfFuel
  | fuel + 1, b :: t =>
    match readSetting (b :: t) with
    | .error e => .error e
    | .ok (s2, effs) =>
      match settingsLoop fuel s2 with
      | .error e => .error e
      | .ok more => .ok (effs ++ more)

def runSettings (s : List Nat) : Except SettingErr (List BootEffect) :=
  settingsLoop (s.length + 1) s

/-- C6 (amended): reading one setting record, a u32 code outside the
recognised `DatabaseBlockId` set is a hard error (the read returns the
unknown-block-id failure); a recognised code in `read_setting`'s handled
table is consumed by its typed read/skip and never reaches the panicking
arm; but a recognised code outside that table aborts the process through
the `todo!` default arm instead of being skipped.  (The claim's "every
recognised code ... is consumed by a typed skip ... never aborting" is
false: the handled table covers only 19 of the 89 recognised codes.) -/
theorem c6_setting_dispatch :
    (∀ code rest, code < 4294967296 → knownBlockIds.contains code = false →
      readSetting (beBytes 4 code ++ rest) = .error .unknownBlockId) ∧
    (∀ code, code ∈ parsedOrSkippedBlockIds →
      ∀ s e, readSettingBody code s ≠ .error (.panicTodo e)) ∧
    (∀ code, code ∈ todoBlockIds →
      ∀ s, readSettingBody code s = .error (.panicTodo code)) := by
  refine ⟨?_, ?_, ?_⟩
  · intro code rest h32 hmem
    have h4 : code < 256 ^ 4 := by norm_num; omega
    unfold readSetting
    rw [readBE_append rest h4]
    show (if knownBlockIds.contains code then readSettingBody code rest
      else .error .unknownBlockId) = _
    rw [hmem]
    simp
  · intro code hmem s e
    fin_cases hmem <;> exact noEff_ne_panic _ _
  · intro code hmem s
    fin_cases hmem <;> rfl

theorem c6_setting_dispatch_witness :
    readSetting (beBytes 4 700 ++ []) = .error .unknownBlockId ∧
    readSettingBody 0x49 [] ≠ .error (.panicTodo 0) ∧
    readSettingBody 0x02 [] = .error (.panicTodo 0x02) :=
  ⟨c6_setting_dispatch.1 700 [] (by norm_num) (by decide),
   c6_setting_dispatch.2.1 0x49 (by decide) [] 0,
   c6_setting_dispatch.2.2 0x02 (by decide) []⟩

/-- C6 (counterexample): code 0x02 (`DcOptionOldOld`) is recognised (it is
in `DatabaseBlockId`) and is not one of the parsed codes, so the claim says
the record is consumed by a typed skip and the read succeeds; the source
hits `x => todo!("{:?}", x)` and aborts the process. -/
theorem c6_setting_dispatch_cex :
    knownBlockIds.contains 0x02 = true ∧
    readSetting [0, 0, 0, 0x02] = .error (.panicTodo 0x02) := by
  decide

/-- C8 (amended): a `ThemeKey` setting record parses as `day:u64`,
`night:u64`, `nightMode:u32` and is merely logged: the read succeeds,
consumes exactly the 20 payload bytes, and produces no theme-reader
invocation (no `themeRead` effect) and no file-size check — the theme
reader of spec §4.8, together with its 5 MiB cap and its night/day key
selection, is absent from the source. -/
theorem c8_theme_key_no_invocation (day night nm : Nat) (rest : List Nat)
    (hd : day < 256 ^ 8) (hn : night < 256 ^ 8) (hm : nm < 256 ^ 4) :
    readSetting (beBytes 4 0x54 ++
        (beBytes 8 day ++ (beBytes 8 night ++ (beBytes 4 nm ++ rest)))) =
      .ok (rest, []) := by
  have h54 : (0x54 : Nat) < 256 ^ 4 := by norm_num
  simp [readSetting, readSettingBody, readBE_append _ h54, readBE_append _ hd,
    readBE_append _ hn, readBE_append _ hm, skipBE, noEff, liftR,
    Except.mapError, Except.map, knownBlockIds, bind, Except.bind]

theorem c8_theme_key_no_invocation_witness :
    readSetting (beBytes 4 0x54 ++
        (beBytes 8 5 ++ (beBytes 8 6 ++ (beBytes 4 1 ++ [])))) =
      .ok ([], []) :=
  c8_theme_key_no_invocation 5 6 1 [] (by norm_num) (by norm_num) (by norm_num)

/-- C8 (counterexample): a concrete `ThemeKey` record with
`nightMode = 1`.  The claim says the program then invokes the theme reader
with the night key (and enforces the 5 MiB cap on the referenced file); the
source merely consumes the record — the read succeeds with an empty effect
list, i.e. no `themeRead` invocation for any key, and no file access at
all. -/
theorem c8_theme_key_no_invocation_cex :
    readSetting
        [0, 0, 0, 0x54,
         0, 0, 0, 0, 0, 0, 0, 5,
         0, 0, 0, 0, 0, 0, 0, 6,
         0, 0, 0, 1] =
      .ok ([], []) ∧
    ([] : List BootEffect).contains (.themeRead 6) = false := by
  decide

/-! ## Account map — `StorageAccount::read_map` (main.rs) -/

/-- Failures of the map-record loop: a primitive read failure, the
`unknown key type in encrypted map` context error from `try_into`, and the
`bail!("UserMap")` rejection. -/
inductive MapErr
  | readFail (e : IoErr)
  | unknownKeyType
  | userMap
  deriving DecidableEq

def liftMap {α : Type} : Except IoErr α → Except MapErr α :=
  Except.mapError .readFail

/-- A map arm that retains nothing: it only advances the stream. -/
def noRetain (r : Except IoErr (List Nat)) :
    Except MapErr (Option Nat × List Nat) :=
  (liftMap r).map (fun s => ((none : Option Nat), s))

theorem noRetain_none {r : Except IoErr (List Nat)} {p : Option Nat × List Nat}
    (h : noRetain r = .ok p) : p.1 = none := by
  cases r with
  | error e => simp [noRetain, liftMap, Except.mapError, Except.map] at h
  | ok s =>
    simp [noRetain, liftMap, Except.mapError, Except.map] at h
    rw [← h]

/-- Skip one `(FileKey, PeerId)` draft record: two `u64`s. -/
def skipDraftItem (s : List Nat) : Except IoErr (List Nat) := do
  let s1 ← skipBE 8 s
  skipBE 8 s1

/-- Skip one legacy-media record: `(FileKey, u64, u64, u32)`. -/
def skipLegacyMediaItem (s : List Nat) : Except IoErr (List Nat) := do
  let s1 ← skipBE 8 s
  let s2 ← skipBE 8 s1
  let s3 ← skipBE 8 s2
  skipBE 4 s3

/-- The `match key_type` body of `read_map` (main.rs), keyed by the numeric
`LocalStorageKey` value.  Only `UserSettings` (0x09) retains its `u64` in
`self.keys.settings`; `SelfSerialized` (0x15) reads a `Bytes`; the draft,
legacy-media, misc single-key, `BackgroundOld`, `StickersKeys` and
`MasksKeys` arms read and drop their payloads; `UserMap` (0x00) is
`bail!("UserMap")`. -/
def mapArm (keyType : Nat) (s : List Nat) :
    Except MapErr (Option Nat × List Nat) :=
  match keyType with
  | 0x00 => .error .userMap
  | 0x01 | 0x02 => noRetain (do
      let (count, s1) ← readBE 4 s
      skipTimes skipDraftItem count s1)
  | 0x15 => noRetain (skipBytesV s)
  | 0x03 | 0x05 | 0x06 => noRetain (do
      let (count, s1) ← readBE 4 s
      skipTimes skipLegacyMediaItem count s1)
  | 0x09 => (liftMap (readBE 8 s)).map (fun p => (some p.1, p.2))
  | 0x04 | 0x07 | 0x08 | 0x0a | 0x0b | 0x0c | 0x0d | 0x0e | 0x0f
  | 0x11 | 0x12 | 0x13 => noRetain (skipBE 8 s)
  | 0x14 => noRetain (do
      let s1 ← skipBE 8 s
      skipBE 8 s1)
  | 0x10 => noRetain (do
      let s1 ← skipBE 8 s
      let s2 ← skipBE 8 s1
      let s3 ← skipBE 8 s2
      skipBE 8 s3)
  | 0x16 => noRetain (do
      let s1 ← skipBE 8 s
      let s2 ← skipBE 8 s1
      skipBE 8 s2)
  | _ => .error .unknownKeyType

/-- One iteration of `read_map`'s record loop (main.rs): read the `u32` key
type — `LocalStorageKey`'s `TryFromPrimitive` accepts exactly `0x00..=0x16`
— and dispatch; returns the retained `UserSettings` key, if any, and the
advanced stream. -/
def readMapRecord (s : List Nat) : Except MapErr (Option Nat × List Nat) :=
  match readBE 4 s with
  | .error e => .error (.readFail e)
  | .ok (keyType, s1) =>
    if keyType ≤ 0x16 then mapArm keyType s1 else .error .unknownKeyType

/-- Modelled from the spec: the tags of the §4.6 account-map dispatch table
(0x00 UserMap, 0x01/0x02 drafts, 0x03/0x05/0x06 legacy media, 0x09
UserSettings, 0x04 / 0x0a–0x0f / 0x11–0x13 misc single-key, 0x14
BackgroundOld, 0x10 StickersKeys, 0x16 MasksKeys; any other tag is listed
as fatal). -/
def specMapDispatchTags : List Nat :=
  [0x00, 0x01, 0x02, 0x03, 0x05, 0x06, 0x09, 0x04, 0x0a, 0x0b, 0x0c, 0x0d,
   0x0e, 0x0f, 0x11, 0x12, 0x13, 0x14, 0x10, 0x16]

/-- C7 (amended): while iterating the account-map records, tag 0x00
(`UserMap`) is a fatal error; every u32 tag above 0x16 — i.e. outside the
`LocalStorageKey` enum, which is the real dispatch table — is a fatal
error; and of all accepted records only the `UserSettings` key (tag 0x09)
is retained in the account's state, every other accepted record only
advancing the stream.  (The spec's §4.6 table is missing the accepted tags
0x07, 0x08 and 0x15, so "no category in the §4.6 table" does not imply a
fatal error.) -/
theorem c7_map_dispatch :
    (∀ rest, readMapRecord (beBytes 4 0x00 ++ rest) = .error .userMap) ∧
    (∀ tag rest, tag < 4294967296 → 0x16 < tag →
      readMapRecord (beBytes 4 tag ++ rest) = .error .unknownKeyType) ∧
    (∀ tag s k s2, tag ≤ 0x16 → mapArm tag s = .ok (some k, s2) → tag = 0x09) := by
  refine ⟨?_, ?_, ?_⟩
  · intro rest
    unfold readMapRecord
    rw [@readBE_append 4 0x00 rest (by norm_num)]
    rfl
  · intro tag rest h32 hgt
    unfold readMapRecord
    rw [readBE_append rest (by norm_num; omega)]
    show (if tag ≤ 0x16 then mapArm tag rest else .error .unknownKeyType) = _
    rw [if_neg (by omega)]
  · intro tag s k s2 hle h
    interval_cases tag <;>
      first
      | rfl
      | exact absurd (noRetain_none h) (by simp)
      | simp [mapArm] at h

theorem c7_map_dispatch_witness :
    readMapRecord (beBytes 4 0x00 ++ []) = .error .userMap ∧
    readMapRecord (beBytes 4 0x17 ++ []) = .error .unknownKeyType ∧
    (0x09 : Nat) = 0x09 :=
  ⟨c7_map_dispatch.1 [],
   c7_map_dispatch.2.1 0x17 [] (by norm_num) (by norm_num),
   c7_map_dispatch.2.2 0x09 (beBytes 8 77) 77 [] (by norm_num) (by decide)⟩

/-- C7 (counterexample): tag 0x15 (`SelfSerialized`) has no category in the
spec's §4.6 dispatch table, so the claim says it is a fatal error; the
source accepts it, reads its `Bytes` payload (here the 1-byte string
`0xAB`), retains nothing, and continues. -/
theorem c7_map_dispatch_cex :
    specMapDispatchTags.contains 0x15 = false ∧
    readMapRecord [0, 0, 0, 0x15, 0, 0, 0, 1, 0xAB] = .ok (none, []) := by
  decide

/-! ## Boot — `start_local_storage` (main.rs) -/

/-- Failures of `start_local_storage`: envelope failures, `Bytes` read
failures, `should_be_done` with bytes left, a salt whose length is not 32
(`salt[..].try_into()`), decryption failures, and setting-stream
failures. -/
inductive LsErr
  | envelope (e : OpenErr)
  | readFail (e : IoErr)
  | extraneousData
  | badSaltSize
  | decryptFail (e : DescErr)
  | settingFail (e : SettingErr)
  deriving DecidableEq

/-- `start_local_storage` (main.rs) on the bytes of
`<workingDir>/tdata/settings` (path resolution is an I/O boundary): open
the envelope, read the salt and the encrypted settings as two `Bytes`
fields, assert `should_be_done`, require a 32-byte salt, derive the legacy
auth key from the empty passcode, decrypt, and parse the settings stream
until `at_end`. -/
def startLocalStorage (md5 sha1 : List Nat → List Nat)
    (ige : List Nat → List Nat → List Nat → List Nat)
    (pbkdf2Sha1 : Nat → List Nat → List Nat → Nat → List Nat)
    (file : List Nat) : Except LsErr (List BootEffect) :=
  match fileOpen md5 file with
  | .error e => .error (.envelope e)
  | .ok (_version, body) =>
    match readBytes body with
    | .error e => .error (.readFail e)
    | .ok (salt, s1) =>
      match readBytes s1 with
      | .error e => .error (.readFail e)
      | .ok (settingsEncrypted, s2) =>
        if s2 ≠ [] then .error .extraneousData
        else if salt.length ≠ 32 then .error .badSaltSize
        else
          match decryptLocal sha1 ige settingsEncrypted
              (createLegacyLocal pbkdf2Sha1 [] salt) with
          | .error e => .error (.decryptFail e)
          | .ok stream =>
            match runSettings stream with
            | .error e => .error (.settingFail e)
            | .ok effs => .ok effs

/-- C5 (amended): the local-storage boot step opens the settings envelope
and reads exactly **two** `Bytes` fields — the salt and the encrypted
settings — before asserting `should_be_done`, verifies that the salt is 32
bytes long, derives the legacy auth key from the empty passcode, and then
parses the settings stream from the decrypted block.  (The spec's "three
Bytes fields" is wrong: a third field trips `should_be_done`.) -/
theorem c5_local_storage_two_fields (md5 sha1 : List Nat → List Nat)
    (ige : List Nat → List Nat → List Nat → List Nat)
    (pbkdf2Sha1 : Nat → List Nat → List Nat → Nat → List Nat)
    (vbytes trailer salt enc salt2 : List Nat)
    (hv : vbytes.length = 4) (ht : trailer.length = 16) :
    (salt.length = 32 → enc.length < 4294967295 →
      md5 (mdPre (encBytes salt ++ encBytes enc) vbytes) = trailer →
      startLocalStorage md5 sha1 ige pbkdf2Sha1
          (tdfMagic ++ (vbytes ++ ((encBytes salt ++ encBytes enc) ++ trailer))) =
        match decryptLocal sha1 ige enc (createLegacyLocal pbkdf2Sha1 [] salt) with
        | .error e => .error (.decryptFail e)
        | .ok stream =>
          match runSettings stream with
          | .error e => .error (.settingFail e)
          | .ok effs => .ok effs) ∧
    (salt2.length ≠ 32 → salt2.length < 4294967295 → enc.length < 4294967295 →
      md5 (mdPre (encBytes salt2 ++ encBytes enc) vbytes) = trailer →
      startLocalStorage md5 sha1 ige pbkdf2Sha1
          (tdfMagic ++ (vbytes ++ ((encBytes salt2 ++ encBytes enc) ++ trailer))) =
        .error .badSaltSize) := by
  constructor
  · intro hsalt henc hmd5
    have h1 : readBytes (encBytes salt ++ encBytes enc) = .ok (salt, encBytes enc) :=
      readBytes_enc (encBytes enc) (by omega)
    have h2 : readBytes (encBytes enc) = .ok (enc, []) := by
      have := readBytes_enc ([] : List Nat) henc
      simpa using this
    unfold startLocalStorage
    rw [fileOpen_append md5 vbytes (encBytes salt ++ encBytes enc) trailer hv ht,
      if_pos hmd5]
    show (match readBytes (encBytes salt ++ encBytes enc) with
      | .error e => Except.error (LsErr.readFail e)
      | .ok (salt, s1) =>
        match readBytes s1 with
        | .error e => .error (.readFail e)
        | .ok (settingsEncrypted, s2) =>
          if s2 ≠ [] then Except.error LsErr.extraneousData
          else if salt.length ≠ 32 then .error .badSaltSize
          else
            match decryptLocal sha1 ige settingsEncrypted
                (createLegacyLocal pbkdf2Sha1 [] salt) with
            | .error e => .error (.decryptFail e)
            | .ok stream =>
              match runSettings stream with
              | .error e => .error (.settingFail e)
              | .ok effs => .ok effs) = _
    rw [h1]
    show (match readBytes (encBytes enc) with
      | .error e => Except.error (LsErr.readFail e)
      | .ok (settingsEncrypted, s2) =>
        if s2 ≠ [] then Except.error LsErr.extraneousData
        else if salt.length ≠ 32 then .error .badSaltSize
        else
          match decryptLocal sha1 ige settingsEncrypted
              (createLegacyLocal pbkdf2Sha1 [] salt) with
          | .error e => .error (.decryptFail e)
          | .ok stream =>
            match runSettings stream with
            | .error e => .error (.settingFail e)
            | .ok effs => .ok effs) = _
    rw [h2]
    show (if ([] : List Nat) ≠ [] then Except.error LsErr.extraneousData
      else if salt.length ≠ 32 then .error .badSaltSize
      else
        match decryptLocal sha1 ige enc (createLegacyLocal pbkdf2Sha1 [] salt) with
        | .error e => .error (.decryptFail e)
        | .ok stream =>
          match runSettings stream with
          | .error e => .error (.settingFail e)
          | .ok effs => .ok effs) = _
    rw [if_neg (by simp), if_neg (by omega)]
  · intro hsalt2 hlen2 henc hmd5
    have h1 : readBytes (encBytes salt2 ++ encBytes enc) = .ok (salt2, encBytes enc) :=
      readBytes_enc (encBytes enc) (by omega)
    have h2 : readBytes (encBytes enc) = .ok (enc, []) := by
      have := readBytes_enc ([] : List Nat) henc
      simpa using this
    unfold startLocalStorage
    rw [fileOpen_append md5 vbytes (encBytes salt2 ++ encBytes enc) trailer hv ht,
      if_pos hmd5]
    show (match readBytes (encBytes salt2 ++ encBytes enc) with
      | .error e => Except.error (LsErr.readFail e)
      | .ok (salt, s1) =>
        match readBytes s1 with
        | .error e => .error (.readFail e)
        | .ok (settingsEncrypted, s2) =>
          if s2 ≠ [] then Except.error LsErr.extraneousData
          else if salt.length ≠ 32 then .error .badSaltSize
          else
            match decryptLocal sha1 ige settingsEncrypted
                (createLegacyLocal pbkdf2Sha1 [] salt) with
            | .error e => .error (.decryptFail e)
            | .ok stream =>
              match runSettings stream with
              | .error e => .error (.settingFail e)
              | .ok effs => .ok effs) = _
    rw [h1]
    show (match readBytes (encBytes enc) with
      | .error e => Except.error (LsErr.readFail e)
      | .ok (settingsEncrypted, s2) =>
        if s2 ≠ [] then Except.error LsErr.extraneousData
        else if salt2.length ≠ 32 then .error .badSaltSize
        else
          match decryptLocal sha1 ige settingsEncrypted
              (createLegacyLocal pbkdf2Sha1 [] salt2) with
          | .error e => .error (.decryptFail e)
          | .ok stream =>
            match runSettings stream with
            | .error e => .error (.settingFail e)
            | .ok effs => .ok effs) = _
    rw [h2]
    show (if ([] : List Nat) ≠ [] then Except.error LsErr.extraneousData
      else if salt2.length ≠ 32 then Except.error LsErr.badSaltSize
      else
        match decryptLocal sha1 ige enc (createLegacyLocal pbkdf2Sha1 [] salt2) with
        | .error e => .error (.decryptFail e)
        | .ok stream =>
          match runSettings stream with
          | .error e => .error (.settingFail e)
          | .ok effs => .ok effs) = _
    rw [if_neg (by simp), if_pos hsalt2]

theorem c5_local_storage_two_fields_witness :
    (startLocalStorage (fun _ => List.replicate 16 0) (fun _ => [])
        (fun _ _ _ => []) (fun _ _ _ _ => [])
        (tdfMagic ++ ([7, 0, 0, 0] ++
          ((encBytes (List.replicate 32 0) ++ encBytes []) ++ List.replicate 16 0))) =
      match decryptLocal (fun _ => []) (fun _ _ _ => []) []
          (createLegacyLocal (fun _ _ _ _ => []) [] (List.replicate 32 0)) with
      | .error e => .error (.decryptFail e)
      | .ok stream =>
        match runSettings stream with
        | .error e => .error (.settingFail e)
        | .ok effs => .ok effs) ∧
    (startLocalStorage (fun _ => List.replicate 16 0) (fun _ => [])
        (fun _ _ _ => []) (fun _ _ _ _ => [])
        (tdfMagic ++ ([7, 0, 0, 0] ++
          ((encBytes [9] ++ encBytes []) ++ List.replicate 16 0))) =
      .error .badSaltSize) :=
  ⟨(c5_local_storage_two_fields (fun _ => List.replicate 16 0) (fun _ => [])
      (fun _ _ _ => []) (fun _ _ _ _ => []) [7, 0, 0, 0] (List.replicate 16 0)
      (List.replicate 32 0) [] [9] (by decide) (by decide)).1
        (by decide) (by decide) rfl,
   (c5_local_storage_two_fields (fun _ => List.replicate 16 0) (fun _ => [])
      (fun _ _ _ => []) (fun _ _ _ _ => []) [7, 0, 0, 0] (List.replicate 16 0)
      (List.replicate 32 0) [] [9] (by decide) (by decide)).2
        (by decide) (by decide) (by decide) rfl⟩

/-- C5 (counterexample): a settings envelope whose body holds exactly three
well-formed `Bytes` fields — a 32-byte salt, then `[1]`, then `[2]` — as
the claim describes.  If the reader read three `Bytes` fields before
asserting `should_be_done`, this input would pass that assertion; the
source reads only two and fails with the extraneous-data error on the 5
leftover bytes of the third field. -/
theorem c5_local_storage_two_fields_cex :
    readBytes (encBytes (List.replicate 32 0) ++ (encBytes [1] ++ encBytes [2])) =
      .ok (List.replicate 32 0, encBytes [1] ++ encBytes [2]) ∧
    readBytes (encBytes [1] ++ encBytes [2]) = .ok ([1], encBytes [2]) ∧
    readBytes (encBytes [2]) = .ok ([2], []) ∧
    (List.replicate 32 0 : List Nat).length = 32 ∧
    startLocalStorage (fun _ => List.replicate 16 0) (fun _ => [])
        (fun _ _ _ => []) (fun _ _ _ _ => [])
        (tdfMagic ++ ([7, 0, 0, 0] ++
          ((encBytes (List.replicate 32 0) ++ (encBytes [1] ++ encBytes [2])) ++
            List.replicate 16 0))) =
      .error .extraneousData := by
  decide
